import Mathlib

/-!
Verification of the exercise-evaluation and test-submission core of the
lms-system repository, against its natural-language specification.

The Python sources are shallowly embedded:
* strings are `String`, Python `.lower()` is `strLower` and `.strip()` is
  `strTrim`, defined over character lists so concrete runs reduce;
* Python numbers that flow through `float` arithmetic are modelled as exact
  rationals (`ℚ`); integer scores are `ℕ`; Python `int(x)` on a nonnegative
  value is truncation, i.e. `Nat` floor division on exact values;
* Python `round` is round-half-to-even (`pyRound`), the spec's
  "ties round half up" is `roundHalfUp`;
* Python dicts are association lists whose keys are unique, `dict.get(k, d)`
  is `List.lookup` with a default;
* code that can raise maps to `Except String`.
-/

set_option autoImplicit false

namespace LMS

/-- Python `str.lower()` (the sources only lower-case ASCII answer text),
defined over the character list so that concrete evaluations reduce. -/
def strLower (s : String) : String := ⟨s.data.map Char.toLower⟩

/-- Python `str.strip()`: leading and trailing whitespace removed, defined
over the character list so that concrete evaluations reduce. -/
def strTrim (s : String) : String :=
  ⟨((s.data.dropWhile Char.isWhitespace).reverse.dropWhile Char.isWhitespace).reverse⟩

/-- Python `str.strip().lower()` normalisation used throughout the evaluators. -/
def pyNorm (s : String) : String := strLower (strTrim s)

/-- Python `round`: round half to even (banker's rounding), on exact rationals. -/
def pyRound (q : ℚ) : ℤ :=
  let f := ⌊q⌋
  let r := q - f
  if r < 1/2 then f
  else if 1/2 < r then f + 1
  else if f % 2 = 0 then f else f + 1

/-- The specification's rounding: round to nearest, ties round half up. -/
def roundHalfUp (q : ℚ) : ℤ := ⌊q + 1/2⌋

/-- Scoring mechanism of the function-based evaluators
(`exercise_evaluator/exercise_evaluator.py` lines 50-58): defaults
`points_per_correct = 1`, `correct_points = 1`, `incorrect_points = 0`,
merged with the exercise's own scoring mechanism. -/
structure Scoring where
  correctPoints : ℕ
  incorrectPoints : ℕ
  pointsPerCorrect : ℕ
  allowPartial : Bool
deriving DecidableEq, Repr

/-- Result of the function-based evaluators (`ExerciseEvaluationResult`):
`is_correct`, integer `score`, `feedback` text. The `detailed_results`
dictionary is not part of any claim and is dropped. -/
structure ExerciseEvaluationResult where
  is_correct : Bool
  score : ℕ
  feedback : String
deriving DecidableEq, Repr

/-- Embedding of `evaluate_multiple_choice` (function-based file, lines 134-189).
`user_selections = user_response.get("selected_options", [])` is the list of
selected option ids; sets are Python `set(...)`, embedded as `Finset String`.
The partial-credit line `int(correct_points * (correct_count / total_correct))`
is truncation of a nonnegative quotient, i.e. `Nat` division. -/
def evaluate_multiple_choice (userSelections correctAnswers : List String)
    (allowMultiple : Bool) (s : Scoring) : ExerciseEvaluationResult :=
  if allowMultiple = false ∧ userSelections.length > 1 then
    ⟨false, 0, "Please select only one option."⟩
  else
    let userSet := userSelections.toFinset
    let correctSet := correctAnswers.toFinset
    let isCorrect : Bool := userSet = correctSet
    let score :=
      if isCorrect then s.correctPoints
      else if s.allowPartial = true ∧ (userSet ∩ correctSet).Nonempty then
        s.correctPoints * (userSet ∩ correctSet).card / correctSet.card
      else s.incorrectPoints
    ⟨isCorrect, score,
      if isCorrect then "Correct! Well done." else "Incorrect. Please try again."⟩

/-- The multiple-choice partial-credit score as the specification words it:
`correctPoints * |intersection| / |correctSet|`, rounded to the nearest
integer with ties rounding half up. -/
def mcSpecPartialScore (correctPoints interCard correctCard : ℕ) : ℤ :=
  roundHalfUp ((correctPoints * interCard : ℚ) / correctCard)

/-- An entry of `alternate_answers` in `evaluate_fill_blank`: the code wraps a
non-list entry into a singleton list (`if not isinstance(alt_answers_for_blank,
list): alt_answers_for_blank = [...]`). -/
inductive AltEntry where
  | one (s : String)
  | many (ss : List String)
deriving DecidableEq, Repr

/-- The list of alternates an `AltEntry` denotes after the wrapping step. -/
def AltEntry.toList : AltEntry → List String
  | .one s => [s]
  | .many ss => ss

/-- Whether blank `idx` with correct answer `correct` is answered correctly in
`evaluate_fill_blank` (lines 211-236): the user answer is
`user_answers.get(str(idx), "")`, compared (lower-cased unless
`case_sensitive`) against the correct answer and then against
`alternate_answers[idx]` when that index exists. -/
def fillBlankCorrect (userAnswers : List (Nat × String))
    (alternates : Option (List AltEntry)) (caseSensitive : Bool)
    (idx : Nat) (correct : String) : Bool :=
  let ua0 := (userAnswers.lookup idx).getD ""
  let ua := if caseSensitive then ua0 else strLower ua0
  let pc := if caseSensitive then correct else strLower correct
  if ua = pc then true
  else
    match alternates with
    | none => false
    | some alts =>
        match alts.get? idx with
        | none => false
        | some entry =>
            ua ∈ entry.toList.map (fun alt => if caseSensitive then alt else strLower alt)

/-- The `correct_count` of `evaluate_fill_blank`: the number of blank indices whose
answer matches the correct answer or one of its alternates. -/
def fillBlankCorrectCount (correctAnswers : List String)
    (userAnswers : List (Nat × String)) (alternates : Option (List AltEntry))
    (caseSensitive : Bool) : ℕ :=
  (correctAnswers.enum.countP fun p =>
    fillBlankCorrect userAnswers alternates caseSensitive p.1 p.2)

/-- Embedding of `evaluate_fill_blank` (function-based file, lines 192-270): per-blank
comparison keyed by the blank index, `score = correct_count *
points_per_correct`, `is_correct = (correct_count == total_blanks)`. -/
def evaluate_fill_blank (correctAnswers : List String)
    (userAnswers : List (Nat × String)) (alternates : Option (List AltEntry))
    (caseSensitive : Bool) (s : Scoring) : ExerciseEvaluationResult :=
  let correctCount := fillBlankCorrectCount correctAnswers userAnswers alternates caseSensitive
  let totalBlanks := correctAnswers.length
  let score := correctCount * s.pointsPerCorrect
  let isCorrect : Bool := correctCount = totalBlanks
  ⟨isCorrect, score,
    if isCorrect then "All blanks filled correctly. Well done!"
    else "You got some blanks wrong."⟩

/-- Result of the object-oriented evaluators (`EvaluationResult` in
`exercise_evaluator.py`): `score`, `is_correct`, `feedback`, `max_score`. -/
structure EvaluationResult where
  score : ℕ
  is_correct : Bool
  feedback : String
  max_score : ℕ
deriving DecidableEq, Repr

/-- The `correct_count` of `ClozeTestEvaluator.evaluate` (OO file, lines 244-247):
position `i` counts when `i < len(user_answers)` and the stripped, lower-cased
answers coincide. -/
def clozeCorrectCount (correctAnswers userAnswers : List String) : ℕ :=
  (correctAnswers.enum.countP fun p =>
    match userAnswers.get? p.1 with
    | some u => pyNorm u = pyNorm p.2
    | none => false)

/-- Embedding of `ClozeTestEvaluator.evaluate` (OO file, lines 232-258): proportional score
`round(max_score * correct_count / total)` and a 70%-of-max correctness
threshold (`score >= max_score * 0.7`); `max_score` is the exercise's
`difficulty_level`. Arithmetic is modelled exactly over `ℚ`. -/
def clozeTestEvaluate (correctAnswers userAnswers : List String)
    (maxScore : ℕ) : EvaluationResult :=
  let correctCount := clozeCorrectCount correctAnswers userAnswers
  let total := correctAnswers.length
  let score : ℕ :=
    if total > 0 then (pyRound ((maxScore * correctCount : ℚ) / total)).toNat else 0
  let isCorrect : Bool := (score : ℚ) ≥ (maxScore : ℚ) * (7/10)
  ⟨score, isCorrect, "You filled some gaps.", maxScore⟩

/-- The `correct_count` of `MatchingWordsEvaluator.evaluate` (OO file, lines
180-185): a pair counts when its key appears in the user's matches and the
stripped, lower-cased values coincide. `correct_matches` is a Python dict,
embedded as an association list with unique keys. -/
def matchingWordsOOCount (correctMatches userMatches : List (String × String)) : ℕ :=
  correctMatches.countP fun kv =>
    match userMatches.lookup kv.1 with
    | some uv => pyNorm uv = pyNorm kv.2
    | none => false

/-- Embedding of `MatchingWordsEvaluator.evaluate` (OO file, lines 168-196): proportional
score `round(max_score * (correct_count / total))` (0 when there are no
pairs), `is_correct = (score == max_score)`; `max_score` is the exercise's
`difficulty_level`. -/
def matchingWordsEvaluatorEvaluate (correctMatches userMatches : List (String × String))
    (maxScore : ℕ) : EvaluationResult :=
  let correctCount := matchingWordsOOCount correctMatches userMatches
  let total := correctMatches.length
  let score : ℕ :=
    if total > 0 then (pyRound ((maxScore : ℚ) * (correctCount / total : ℚ))).toNat else 0
  let isCorrect : Bool := score = maxScore
  ⟨score, isCorrect, "You matched some pairs.", maxScore⟩

/-- Insertion into a Python dict rendered as an association list: an existing
key has its value overwritten in place, a new key is appended. -/
def dictInsert (d : List (String × String)) (k v : String) : List (String × String) :=
  if d.any (fun kv => kv.1 == k) then
    d.map (fun kv => if kv.1 == k then (k, v) else kv)
  else d ++ [(k, v)]

/-- The `correct_matches` dict built by `evaluate_matching_words` (lines
354-358): each answer entry contributes `left → right` when both keys are
present; entries are `(left?, right?)` pairs since the source checks
`"left" in match and "right" in match`. -/
def buildCorrectMatches (correctAnswers : List (Option String × Option String)) :
    List (String × String) :=
  correctAnswers.foldl
    (fun acc p =>
      match p with
      | (some l, some r) => dictInsert acc l r
      | _ => acc)
    []

/-- Embedding of `evaluate_matching_words` (function-based file, lines 342-410): for each
`left → right` pair the user value `user_matches.get(left, "")` is compared
(lower-cased unless `case_sensitive`); `score = correct_count *
points_per_correct`, `is_correct = (correct_count == total_matches)`. -/
def evaluate_matching_words (correctAnswers : List (Option String × Option String))
    (userMatches : List (String × String)) (caseSensitive : Bool)
    (s : Scoring) : ExerciseEvaluationResult :=
  let correctMatches := buildCorrectMatches correctAnswers
  let correctCount := correctMatches.countP fun kv =>
    let ur := (userMatches.lookup kv.1).getD ""
    let pe := if caseSensitive then kv.2 else strLower kv.2
    let pu := if caseSensitive then ur else strLower ur
    pu = pe
  let totalMatches := correctMatches.length
  let score := correctCount * s.pointsPerCorrect
  let isCorrect : Bool := correctCount = totalMatches
  ⟨isCorrect, score,
    if isCorrect then "All matches are correct. Well done!"
    else "You matched some pairs."⟩

/-- The evaluator classes the `EvaluatorFactory` can hand out. -/
inductive EvaluatorKind where
  | wordScramble
  | multipleChoice
  | fillBlank
  | trueFalse
  | sentenceReordering
  | matchingWords
  | shortAnswer
  | clozeTest
  | manualReview
deriving DecidableEq, Repr

/-- Embedding of `EvaluatorFactory.get_evaluator` (OO file, lines 283-303): a dict keyed by
the `ExerciseTypeEnum` string values (`str`-valued enum), with
`ManualEvaluator` as the `.get` default; `long_answer` and `comprehension`
map to `ManualEvaluator`, `syn_ant` to `ShortAnswerEvaluator`,
`image_labeling` to `MatchingWordsEvaluator`. -/
def EvaluatorFactory.get_evaluator (exerciseType : String) : EvaluatorKind :=
  if exerciseType = "word_scramble" then .wordScramble
  else if exerciseType = "multiple_choice" then .multipleChoice
  else if exerciseType = "fill_blank" then .fillBlank
  else if exerciseType = "true_false" then .trueFalse
  else if exerciseType = "sentence_reordering" then .sentenceReordering
  else if exerciseType = "matching_words" then .matchingWords
  else if exerciseType = "short_answer" then .shortAnswer
  else if exerciseType = "cloze_test" then .clozeTest
  else if exerciseType = "long_answer" then .manualReview
  else if exerciseType = "comprehension" then .manualReview
  else if exerciseType = "syn_ant" then .shortAnswer
  else if exerciseType = "image_labeling" then .matchingWords
  else .manualReview

/-- A Python value as it may appear in response data: a string, an int, a
bool, or a (possibly nested) list. -/
inductive PyVal where
  | str (s : String)
  | int (n : ℤ)
  | bool (b : Bool)
  | list (xs : List PyVal)
deriving Repr

/-- Embedding of `ManualEvaluator.evaluate` (OO file, lines 261-276): ignores the response
entirely and returns `score=0`, `is_correct=False` with a pending-review
feedback; `max_score` is the exercise's `difficulty_level`. -/
def ManualEvaluator.evaluate (maxScore : ℕ) (response : PyVal) : EvaluationResult :=
  ⟨0, false,
    "Your answer has been submitted and will be reviewed by an instructor.",
    maxScore⟩

/-- The exercise-type strings the function-based dispatcher
`evaluate_exercise_response` (lines 61-72) recognises; anything else falls
into its manual-review `else` branch. -/
def fnKnownTypes : List String :=
  ["word_scramble", "multiple_choice", "fill_blank", "true_false",
   "matching_words", "short_answer"]

/-- The manual-review fallback result of `evaluate_exercise_response` (lines
74-80), returned for every type string whose lower-casing is not a known
type; the response is only echoed into `detailed_results`. -/
def fnManualReviewResult (response : PyVal) : ExerciseEvaluationResult :=
  ⟨false, 0, "This exercise type requires manual evaluation."⟩

/-- The function-based dispatch followed by its fallback: the result of
`evaluate_exercise_response` for a type string unknown to the dispatcher,
for an arbitrary response. Known types dispatch to their evaluators and are
covered by the per-evaluator definitions above. -/
def evaluate_exercise_response_unknown (exerciseType : String) (response : PyVal) :
    Option ExerciseEvaluationResult :=
  if strLower exerciseType ∈ fnKnownTypes then none
  else some (fnManualReviewResult response)

mutual

/-- Python `==` on response values: structural equality; values of different
shapes compare unequal. (Python's numeric `True == 1` cross-equality is not
exercised by any claim and is not modelled.) -/
def pyEq : PyVal → PyVal → Bool
  | .str a, .str b => a == b
  | .int a, .int b => a == b
  | .bool a, .bool b => a == b
  | .list as, .list bs => pyEqList as bs
  | _, _ => false

/-- Elementwise `pyEq` on lists of equal length. -/
def pyEqList : List PyVal → List PyVal → Bool
  | [], [] => true
  | a :: as, b :: bs => pyEq a b && pyEqList as bs
  | _, _ => false

end

/-- Python `isinstance(v, str)`. -/
def pyIsStr : PyVal → Bool
  | .str _ => true
  | _ => false

/-- Python `str(v)` for the scalar values the evaluators normalise; a list is
given a placeholder rendering (no claim compares a rendered list against a
string). -/
def pyStr : PyVal → String
  | .str s => s
  | .int n => toString n
  | .bool b => if b then "True" else "False"
  | .list _ => "[...]"

/-- Python subscripting `v[i]`: indexing a list or a string, raising
`IndexError` when out of range and `TypeError` on non-subscriptable values. -/
def pySubscript : PyVal → Nat → Except String PyVal
  | .list xs, i =>
      match xs.get? i with
      | some v => .ok v
      | none => .error "IndexError"
  | .str s, i =>
      match s.toList.get? i with
      | some c => .ok (.str (String.singleton c))
      | none => .error "IndexError"
  | _, _ => .error "TypeError"

/-- Python iteration over a value (as in a list comprehension): a list yields
its elements, a string its characters, anything else raises `TypeError`. -/
def pyIter : PyVal → Except String (List PyVal)
  | .list xs => .ok xs
  | .str s => .ok (s.toList.map fun c => .str (String.singleton c))
  | _ => .error "TypeError"

/-- Embedding of `SentenceReorderingEvaluator.evaluate` (OO file, lines 140-165),
with its dynamic typing intact: `user_order = user_response.get("answer", [])`;
the guard `isinstance(correct_order[0], str) and isinstance(user_order[0],
str)` subscripts both lists (short-circuiting after the first conjunct), so an
empty `user_order` raises `IndexError`; in the string branch both sequences
are normalised elementwise with `str(item).strip().lower()` before comparison,
otherwise the raw values are compared. -/
def sentenceReorderingEvaluate (correctAnswers : List PyVal)
    (response : List (String × PyVal)) (maxScore : ℕ) :
    Except String EvaluationResult := do
  let userOrder := (response.lookup "answer").getD (.list [])
  let c0 ← pySubscript (.list correctAnswers) 0
  let strBranch ←
    if pyIsStr c0 then do
      let u0 ← pySubscript userOrder 0
      pure (pyIsStr u0)
    else pure false
  let isCorrect ←
    if strBranch then do
      let userItems ← pyIter userOrder
      let normalizedCorrect := correctAnswers.map fun it => pyNorm (pyStr it)
      let normalizedUser := userItems.map fun it => pyNorm (pyStr it)
      pure (normalizedUser == normalizedCorrect)
    else
      pure (pyEq userOrder (.list correctAnswers))
  let score := if isCorrect then maxScore else 0
  pure ⟨score, isCorrect,
    if isCorrect then "Correct! The sentences are in the right order."
    else "Not quite right. Check the order again.", maxScore⟩

/-- Answer data flowing through `crud/submission.py`: a string, a list of
strings (several acceptable answers), or a dict of pairs (matching words). -/
inductive AnswerData where
  | str (s : String)
  | strs (ss : List String)
  | pairs (kvs : List (String × String))
deriving DecidableEq, Repr

/-- Python `str(·)` on `AnswerData`: exact for strings; lists and dicts get a
distinguishable placeholder rendering (no claim compares those renderings). -/
def AnswerData.toPyStr : AnswerData → String
  | .str s => s
  | .strs ss => "[" ++ String.intercalate ", " ss ++ "]"
  | .pairs kvs => "dict(" ++ String.intercalate ", " (kvs.map fun kv => kv.1 ++ ": " ++ kv.2) ++ ")"

/-- The fields of the `Exercise` model that `grade_submission`
(`crud/submission.py`, lines 147-202) reads: `grading_type`,
`exercise_type`, `correct_answer`, `max_score` (a numeric column, modelled
as an exact rational since the score is returned as `float`). -/
structure CrudExercise where
  gradingType : String
  exerciseType : String
  correctAnswer : AnswerData
  maxScore : ℚ
deriving DecidableEq, Repr

/-- Embedding of `grade_submission` (`crud/submission.py`, lines 147-202): manual grading
types score `0.0`; `multiple_choice`/`true_false` compare normalised strings
for the full `max_score`; `fill_blank`/`short_answer` additionally accept any
member of a list-valued `correct_answer`; `matching_words` on dict answers
scores `(correct_count / total_count) * max_score` (skipped when the dict is
empty); every other case falls through to the final `return 0.0`. -/
def grade_submission (ex : CrudExercise) (userAnswer : AnswerData) : ℚ :=
  if ex.gradingType ≠ "auto" then 0
  else if ex.exerciseType = "multiple_choice" ∨ ex.exerciseType = "true_false" then
    if pyNorm userAnswer.toPyStr = pyNorm ex.correctAnswer.toPyStr then ex.maxScore else 0
  else if ex.exerciseType = "fill_blank" ∨ ex.exerciseType = "short_answer" then
    match ex.correctAnswer with
    | .strs answers =>
        if answers.any (fun a => pyNorm userAnswer.toPyStr = pyNorm a) then ex.maxScore
        else 0
    | ca =>
        if pyNorm userAnswer.toPyStr = pyNorm ca.toPyStr then ex.maxScore else 0
  else if ex.exerciseType = "matching_words" then
    match userAnswer, ex.correctAnswer with
    | .pairs ua, .pairs ca =>
        let correctCount := ca.countP fun kv =>
          match ua.lookup kv.1 with
          | some uv => pyNorm uv = pyNorm kv.2
          | none => false
        let totalCount := ca.length
        if totalCount > 0 then ((correctCount : ℚ) / (totalCount : ℚ)) * ex.maxScore
        else 0
    | _, _ => 0
  else 0

/-- The `Submission` row that `create_submission` (`crud/submission.py`, lines
91-144) inserts: the fields set by the constructor call at lines 129-137. -/
structure SubmissionRow where
  userId : ℕ
  exerciseId : ℕ
  userAnswer : AnswerData
  score : ℚ
  status : String
  gradedBy : Option String
  attemptNumber : ℕ
deriving DecidableEq, Repr

/-- Embedding of `create_submission` (`crud/submission.py`, lines 91-144), after the
exercise and user existence checks have passed: the answer is graded with
`grade_submission`, and the row is stored with `status = "graded"`,
`graded_by = "auto"` when the exercise's `grading_type` is `"auto"`, and
`status = "pending"`, `graded_by = None` otherwise. -/
def create_submission (ex : CrudExercise) (userId exerciseId : ℕ)
    (userAnswer : AnswerData) (attemptNumber : ℕ) : SubmissionRow :=
  let score := grade_submission ex userAnswer
  ⟨userId, exerciseId, userAnswer, score,
    if ex.gradingType = "auto" then "graded" else "pending",
    if ex.gradingType = "auto" then some "auto" else none,
    attemptNumber⟩

/-- The generated `percentage` column of the `scores` table
(`update_schema.py`, lines 196-210):
`total_score / NULLIF(max_possible_score, 0) * 100`. When
`max_possible_score = 0`, `NULLIF` yields SQL NULL, which propagates through
the arithmetic, so the stored percentage is NULL — embedded as `none`.
`DECIMAL(5,2)` scale rounding is not modelled; values are exact rationals. -/
def scoresPercentage (totalScore maxPossibleScore : ℚ) : Option ℚ :=
  if maxPossibleScore = 0 then none
  else some (totalScore / maxPossibleScore * 100)

/-- The fields of a `submissions` row that `SubmissionService` reads. -/
structure SubmissionRec where
  id : ℕ
  testId : ℕ
  status : String
deriving DecidableEq, Repr

/-- The fields of a `test_questions` row that `submit_answer` reads. -/
structure QuestionRec where
  id : ℕ
  testId : ℕ
  exerciseId : ℕ
deriving DecidableEq, Repr

/-- A `submission_answers` row as `submit_answer` creates or updates it. -/
structure AnswerRec where
  submissionId : ℕ
  questionId : ℕ
  exerciseId : ℕ
  answerData : String
deriving DecidableEq, Repr

/-- The database state visible to `SubmissionService.submit_answer` and
`complete_submission`: submissions, questions, the set of existing exercise
ids, and the `submission_answers` table. -/
structure DBState where
  submissions : List SubmissionRec
  questions : List QuestionRec
  exercises : List ℕ
  answers : List AnswerRec
deriving DecidableEq, Repr

/-- Embedding of `Submission.find_by_id`. -/
def findSubmission (st : DBState) (id : ℕ) : Option SubmissionRec :=
  st.submissions.find? fun s => s.id == id

/-- Embedding of `TestQuestion.find_by_id`. -/
def findQuestion (st : DBState) (id : ℕ) : Option QuestionRec :=
  st.questions.find? fun q => q.id == id

/-- The `WHERE submission_id = %s AND question_id = %s` predicate used by the
upsert in `submit_answer`. -/
def answerMatches (submissionId questionId : ℕ) (a : AnswerRec) : Bool :=
  a.submissionId == submissionId && a.questionId == questionId

/-- Number of `submission_answers` rows for a (submission, question) pair. -/
def answerCount (st : DBState) (submissionId questionId : ℕ) : ℕ :=
  st.answers.countP (answerMatches submissionId questionId)

/-- The stored answer row for a (submission, question) pair, as the service's
`fetch_one` would retrieve it. -/
def findAnswer (st : DBState) (submissionId questionId : ℕ) : Option AnswerRec :=
  st.answers.find? (answerMatches submissionId questionId)

/-- Embedding of `SubmissionService.submit_answer` (`database/services.py`, lines 171-229):
reference checks and the `in_progress` guard raise `ValidationError`
(embedded as `Except.error`, which leaves the state unchanged); otherwise the
answer row for the (submission, question) pair is updated in place when one
exists (only `answer_data` changes) and inserted otherwise. -/
def submit_answer (st : DBState) (submissionId questionId exerciseId : ℕ)
    (answerData : String) : Except String DBState :=
  match findSubmission st submissionId with
  | none => .error "Submission not found"
  | some sub =>
    if sub.status ≠ "in_progress" then
      .error "Cannot submit answer. Test is not in progress."
    else
      match findQuestion st questionId with
      | none => .error "Question not found"
      | some q =>
        if q.testId ≠ sub.testId then
          .error "Question does not belong to the test being taken"
        else if exerciseId ∉ st.exercises then .error "Exercise not found"
        else if exerciseId ≠ q.exerciseId then
          .error "Exercise does not match the question"
        else if st.answers.any (answerMatches submissionId questionId) then
          .ok ⟨st.submissions, st.questions, st.exercises,
            st.answers.map fun a =>
              if answerMatches submissionId questionId a then
                ⟨a.submissionId, a.questionId, a.exerciseId, answerData⟩
              else a⟩
        else
          .ok ⟨st.submissions, st.questions, st.exercises,
            st.answers ++ [⟨submissionId, questionId, exerciseId, answerData⟩]⟩

/-- Embedding of `SubmissionService.complete_submission` (`database/services.py`, lines
231-297): the existence and `in_progress` guards are from the source. The
body delegates to `Submission.submit`, the grading loop and
`Score.calculate_for_submission` on `database/models.py`, which is not under
`src/`. Modelled from the spec: completion transitions the submission through
`submitted` to `graded`; the per-answer grading fields are outside this
claim's scope and are left untouched here. -/
def complete_submission (st : DBState) (submissionId : ℕ) : Except String DBState :=
  match findSubmission st submissionId with
  | none => .error "Submission not found"
  | some sub =>
    if sub.status ≠ "in_progress" then
      .error "Cannot complete submission. Test is not in progress."
    else
      .ok ⟨st.submissions.map fun s =>
            if s.id == submissionId then ⟨s.id, s.testId, "graded"⟩ else s,
          st.questions, st.exercises, st.answers⟩

/-- The fields of a `student_tests` assignment row that the attempt policy
reads: `attempts_used`, `max_attempts`, and the due date (time is modelled as
a natural-number clock). -/
structure StudentTestRec where
  attemptsUsed : ℕ
  maxAttempts : ℕ
  dueAt : ℕ
deriving DecidableEq, Repr

/-- Modelled from the spec: `StudentTest.can_take_test` lives in
`database/models.py`, which is not under `src/`. Per the spec's AttemptPolicy
contract, `canStart` fails closed exactly when `attemptsUsed >= maxAttempts`
or `now > dueAt`. -/
def can_take_test (st : StudentTestRec) (now : ℕ) : Bool :=
  st.attemptsUsed < st.maxAttempts && now ≤ st.dueAt

/-- Modelled from the spec: `StudentTest.increment_attempts` lives in
`database/models.py`, which is not under `src/`; per the spec it atomically
increments the `attempts_used` counter. -/
def increment_attempts (st : StudentTestRec) : StudentTestRec :=
  ⟨st.attemptsUsed + 1, st.maxAttempts, st.dueAt⟩

/-- The state `start_test` acts on: the student's assignment row and the
attempt numbers of the submissions created so far. -/
structure AttemptState where
  assignment : StudentTestRec
  submissions : List ℕ
deriving DecidableEq, Repr

/-- Embedding of `SubmissionService.start_test` (`database/services.py`, lines 137-169)
for an assigned test: when `can_take_test` fails, raises `ValidationError`;
otherwise increments the attempts counter and creates an `in_progress`
submission whose `attempt_number` is the incremented `attempts_used`. (The
unassigned-student branch raises before any state is touched and is outside
this claim.) -/
def start_test (now : ℕ) (s : AttemptState) : Except String AttemptState :=
  if can_take_test s.assignment now then
    let assignment := increment_attempts s.assignment
    .ok ⟨assignment, s.submissions ++ [assignment.attemptsUsed]⟩
  else
    .error "Cannot take this test. It may be past due or max attempts reached."

/-- Runs `k` sequential `start_test` calls; returns the final state and the number
of calls that succeeded (calls after the first failure do not succeed, since
the counter never decreases). -/
def startRepeat (now : ℕ) : ℕ → AttemptState → AttemptState × ℕ
  | 0, s => (s, 0)
  | k + 1, s =>
      match start_test now s with
      | .ok s2 =>
          let r := startRepeat now k s2
          (r.1, r.2 + 1)
      | .error _ => (s, 0)

/-- The twelve exercise-type strings that key the `EvaluatorFactory` dict
(the `ExerciseTypeEnum` values, `exercise_schemas.py` lines 10-22). -/
def ooKnownTypes : List String :=
  ["word_scramble", "multiple_choice", "fill_blank", "true_false", "long_answer",
   "syn_ant", "sentence_reordering", "matching_words", "short_answer",
   "cloze_test", "comprehension", "image_labeling"]

/-- C1: the exercise types with manual grading (`long_answer`,
`comprehension`) and every type string unknown to a dispatcher resolve to the
manual-review evaluator, and that evaluator returns `isCorrect = false` and
`score = 0` for every possible response — such an answer is never
auto-scored. This holds in both the object-oriented factory and the
function-based dispatcher. -/
theorem C1_manual_never_autoscored :
    (EvaluatorFactory.get_evaluator "long_answer" = .manualReview ∧
     EvaluatorFactory.get_evaluator "comprehension" = .manualReview) ∧
    (∀ t : String, t ∉ ooKnownTypes → EvaluatorFactory.get_evaluator t = .manualReview) ∧
    (∀ (maxScore : ℕ) (response : PyVal),
      (ManualEvaluator.evaluate maxScore response).is_correct = false ∧
      (ManualEvaluator.evaluate maxScore response).score = 0) ∧
    (∀ (t : String) (response : PyVal), strLower t ∉ fnKnownTypes →
      evaluate_exercise_response_unknown t response = some (fnManualReviewResult response) ∧
      (fnManualReviewResult response).is_correct = false ∧
      (fnManualReviewResult response).score = 0) := by
  refine ⟨⟨by decide, by decide⟩, ?_, ?_, ?_⟩
  · intro t ht
    simp only [ooKnownTypes, List.mem_cons, List.not_mem_nil, or_false, not_or] at ht
    obtain ⟨h1, h2, h3, h4, h5, h6, h7, h8, h9, h10, h11, h12⟩ := ht
    simp [EvaluatorFactory.get_evaluator, h1, h2, h3, h4, h5, h6, h7, h8, h9, h10, h11, h12]
  · intro maxScore response
    exact ⟨rfl, rfl⟩
  · intro t response ht
    refine ⟨?_, rfl, rfl⟩
    simp [evaluate_exercise_response_unknown, ht]

/-- Witness for C1 at the spec's scenario E: the unknown type string
`essay_v2` resolves to the manual-review evaluator in both dispatchers. -/
theorem C1_manual_never_autoscored_witness :
    ("essay_v2" ∉ ooKnownTypes) ∧
    EvaluatorFactory.get_evaluator "essay_v2" = .manualReview ∧
    evaluate_exercise_response_unknown "essay_v2" (.str "anything")
      = some (fnManualReviewResult (.str "anything")) :=
  ⟨by decide, C1_manual_never_autoscored.2.1 "essay_v2" (by decide),
   (C1_manual_never_autoscored.2.2.2 "essay_v2" (.str "anything") (by decide)).1⟩

/-- C2 (amended): the `multiple_choice` evaluator rejects multi-selection when
`allowMultiple=false` with a zero-score format error; exact set equality
yields `correctPoints`; and with `allowPartial=true` and a non-empty
intersection the partial score is `correctPoints * |intersection| /
|correctSet|` TRUNCATED toward zero (Python `int(...)`, i.e. floor on these
nonnegative values), not rounded to nearest with ties half up. -/
theorem C2_multiple_choice_amended (sel correct : List String) (s : Scoring) :
    (sel.length > 1 →
      evaluate_multiple_choice sel correct false s =
        ⟨false, 0, "Please select only one option."⟩) ∧
    (sel.length ≤ 1 → sel.toFinset = correct.toFinset →
      (evaluate_multiple_choice sel correct false s).score = s.correctPoints ∧
      (evaluate_multiple_choice sel correct false s).is_correct = true) ∧
    (sel.length ≤ 1 → sel.toFinset ≠ correct.toFinset → s.allowPartial = true →
      (sel.toFinset ∩ correct.toFinset).Nonempty →
      (evaluate_multiple_choice sel correct false s).score
        = s.correctPoints * (sel.toFinset ∩ correct.toFinset).card / correct.toFinset.card ∧
      (evaluate_multiple_choice sel correct false s).is_correct = false) := by
  refine ⟨?_, ?_, ?_⟩
  · intro h
    simp [evaluate_multiple_choice, h]
  · intro hlen heq
    simp [evaluate_multiple_choice, Nat.not_lt.mpr hlen, heq]
  · intro hlen hne hp hinter
    simp [evaluate_multiple_choice, Nat.not_lt.mpr hlen, hne, hp, hinter]

/-- Counterexample to C2 as stated: one of two correct options selected with
`correctPoints = 1` and `allowPartial = true`. The code truncates
`1 * (1 / 2)` to score `0`; the claim's round-half-up formula gives `1`. -/
theorem C2_multiple_choice_counterexample :
    (evaluate_multiple_choice ["a"] ["a", "b"] false ⟨1, 0, 1, true⟩).score = 0 ∧
    ((["a"] : List String).toFinset ∩ (["a", "b"] : List String).toFinset).card = 1 ∧
    ((["a", "b"] : List String).toFinset).card = 2 ∧
    mcSpecPartialScore 1 1 2 = 1 ∧
    (0 : ℤ) ≠ 1 := by
  refine ⟨by decide, by decide, by decide, ?_, by decide⟩
  norm_num [mcSpecPartialScore, roundHalfUp]

/-- Witness for C2 (amended): selecting exactly the correct single option with
`correctPoints = 2` scores 2 and is marked correct. -/
theorem C2_multiple_choice_witness :
    (["a"] : List String).length ≤ 1 ∧
    (evaluate_multiple_choice ["a"] ["a"] false ⟨2, 0, 1, false⟩).score = 2 ∧
    (evaluate_multiple_choice ["a"] ["a"] false ⟨2, 0, 1, false⟩).is_correct = true :=
  ⟨by decide,
   (C2_multiple_choice_amended ["a"] ["a"] ⟨2, 0, 1, false⟩).2.1 (by decide) rfl⟩

/-- C3: the evaluators are claimed total on malformed responses, but
`SentenceReorderingEvaluator.evaluate` subscripts the user's answer list
before any guard: for string correct answers and the malformed response
`{"answer": []}` the evaluation raises `IndexError` instead of returning a
zero-score format-error verdict. -/
theorem C3_sentence_reordering_raises_on_empty_answer :
    sentenceReorderingEvaluate [.str "a", .str "b"] [("answer", PyVal.list [])] 5
      = .error "IndexError" := by
  rfl

/-- C4 (amended): for the function-based `evaluate_fill_blank` — the evaluator
the dispatcher uses for `fill_blank` — the claim holds verbatim:
`score = pointsPerCorrect * correctCount`, `correctCount` never exceeds the
number of blanks, and `isCorrect` holds exactly when every blank is correct.
The object-oriented `ClozeTestEvaluator` does NOT satisfy the claim: it
scores `round(maxScore * correctCount / totalBlanks)` and sets `isCorrect`
at a 70%-of-max threshold (see the counterexample). -/
theorem C4_fill_blank_amended (correctAnswers : List String)
    (userAnswers : List (Nat × String)) (alternates : Option (List AltEntry))
    (caseSensitive : Bool) (s : Scoring) :
    (evaluate_fill_blank correctAnswers userAnswers alternates caseSensitive s).score
      = s.pointsPerCorrect
          * fillBlankCorrectCount correctAnswers userAnswers alternates caseSensitive ∧
    fillBlankCorrectCount correctAnswers userAnswers alternates caseSensitive
      ≤ correctAnswers.length ∧
    ((evaluate_fill_blank correctAnswers userAnswers alternates caseSensitive s).is_correct
        = true
      ↔ fillBlankCorrectCount correctAnswers userAnswers alternates caseSensitive
          = correctAnswers.length) := by
  refine ⟨by simp [evaluate_fill_blank, Nat.mul_comm], ?_, ?_⟩
  · calc fillBlankCorrectCount correctAnswers userAnswers alternates caseSensitive
        ≤ correctAnswers.enum.length := List.countP_le_length _
      _ = correctAnswers.length := List.enum_length
  · simp [evaluate_fill_blank]

/-- Counterexample to C4 as stated: a `cloze_test` evaluation by the
object-oriented `ClozeTestEvaluator` with 8 of 10 blanks correct and
`maxScore = 5` is marked correct (`round(5 * 8/10) = 4 ≥ 5 * 0.7`) even
though `correctCount ≠ totalBlanks`, contradicting "isCorrect is true
exactly when correctCount == totalBlanks". -/
theorem C4_cloze_test_counterexample :
    (clozeTestEvaluate ["a", "b", "c", "d", "e", "f", "g", "h", "i", "j"]
        ["a", "b", "c", "d", "e", "f", "g", "h", "x", "y"] 5).is_correct = true ∧
    clozeCorrectCount ["a", "b", "c", "d", "e", "f", "g", "h", "i", "j"]
        ["a", "b", "c", "d", "e", "f", "g", "h", "x", "y"]
      ≠ (["a", "b", "c", "d", "e", "f", "g", "h", "i", "j"] : List String).length := by
  constructor
  · have hc : clozeCorrectCount ["a", "b", "c", "d", "e", "f", "g", "h", "i", "j"]
        ["a", "b", "c", "d", "e", "f", "g", "h", "x", "y"] = 8 := by decide
    simp only [clozeTestEvaluate, hc]
    norm_num [pyRound, show Int.toNat 4 = 4 from rfl]
  · decide

/-- C5: the two matching-words implementations diverge on partial credit. On
the spec's scenario-B data with `maxScore = 4` and `pointsPerCorrect = 1`,
the object-oriented `MatchingWordsEvaluator` computes
`round(maxScore * correctCount/totalPairs) = round(4 * 1/2) = 2` while the
function-based `evaluate_matching_words` computes
`pointsPerCorrect * correctCount = 1`, and neither marks the answer correct. -/
theorem C5_matching_words_divergence :
    (matchingWordsEvaluatorEvaluate [("France", "Paris"), ("UK", "London")]
        [("France", "Paris"), ("UK", "Berlin")] 4).score = 2 ∧
    (evaluate_matching_words [(some "France", some "Paris"), (some "UK", some "London")]
        [("France", "Paris"), ("UK", "Berlin")] false ⟨1, 0, 1, false⟩).score = 1 ∧
    (evaluate_matching_words [(some "France", some "Paris"), (some "UK", some "London")]
        [("France", "Paris"), ("UK", "Berlin")] false ⟨1, 0, 1, false⟩).is_correct = false ∧
    (2 : ℕ) ≠ 1 := by
  refine ⟨?_, by decide, by decide, by decide⟩
  have hc : matchingWordsOOCount [("France", "Paris"), ("UK", "London")]
      [("France", "Paris"), ("UK", "Berlin")] = 1 := by decide
  simp only [matchingWordsEvaluatorEvaluate, hc]
  norm_num [pyRound, show Int.toNat 2 = 2 from rfl]

/-- C6 (amended): the generated `percentage` column never divides by zero,
but when `maxPossibleScore = 0` it is SQL NULL, not `0`; when
`maxPossibleScore ≠ 0` it equals `totalScore / maxPossibleScore * 100`,
which lies in `[0, 100]` whenever `0 ≤ totalScore ≤ maxPossibleScore`
(a bound the DDL itself does not enforce). -/
theorem C6_percentage_amended (total maxP : ℚ) :
    scoresPercentage total 0 = none ∧
    (maxP ≠ 0 → scoresPercentage total maxP = some (total / maxP * 100)) ∧
    (0 ≤ total → total ≤ maxP → maxP ≠ 0 →
      0 ≤ total / maxP * 100 ∧ total / maxP * 100 ≤ 100) := by
  refine ⟨by simp [scoresPercentage], fun h => by simp [scoresPercentage, h], ?_⟩
  intro h0 hle hne
  have hpos : 0 < maxP := lt_of_le_of_ne (le_trans h0 hle) (Ne.symm hne)
  constructor
  · positivity
  · have hdiv : total / maxP ≤ 1 := (div_le_one hpos).mpr hle
    calc total / maxP * 100 ≤ 1 * 100 :=
          mul_le_mul_of_nonneg_right hdiv (by norm_num)
      _ = 100 := by norm_num

/-- Counterexample to C6 as stated: with `maxPossibleScore = 0` the stored
percentage is NULL (`none`), not `0`; and nothing keeps the column in
`[0, 100]`: a row with `totalScore = 200`, `maxPossibleScore = 100` stores
percentage `200`. -/
theorem C6_percentage_counterexample :
    scoresPercentage 5 0 ≠ some 0 ∧
    scoresPercentage 200 100 = some 200 ∧
    ¬ ((200 : ℚ) ≤ 100) := by
  refine ⟨by simp [scoresPercentage], ?_, by norm_num⟩
  norm_num [scoresPercentage]

/-- Witness for C6 (amended) at `totalScore = 50`, `maxPossibleScore = 100`. -/
theorem C6_percentage_witness :
    scoresPercentage 50 100 = some ((50 : ℚ) / 100 * 100) ∧
    (0 ≤ (50 : ℚ) / 100 * 100 ∧ (50 : ℚ) / 100 * 100 ≤ 100) :=
  ⟨(C6_percentage_amended 50 100).2.1 (by norm_num),
   (C6_percentage_amended 50 100).2.2 (by norm_num) (by norm_num) (by norm_num)⟩

/-- Updating a row's `answer_data` does not change whether it matches the
(submission, question) pair. -/
theorem answerMatches_update (sid qid : ℕ) (d : String) (a : AnswerRec) :
    answerMatches sid qid ⟨a.submissionId, a.questionId, a.exerciseId, d⟩
      = answerMatches sid qid a := rfl

/-- The in-place update of `submit_answer` preserves the number of rows for
the (submission, question) pair. -/
theorem countP_update_answers (sid qid : ℕ) (d : String) (l : List AnswerRec) :
    (l.map fun a =>
        if answerMatches sid qid a then
          AnswerRec.mk a.submissionId a.questionId a.exerciseId d
        else a).countP (answerMatches sid qid)
      = l.countP (answerMatches sid qid) := by
  induction l with
  | nil => rfl
  | cons hd t ih =>
    by_cases hp : answerMatches sid qid hd
    · simp [List.countP_cons, hp, answerMatches_update, ih]
    · simp [List.countP_cons, hp, ih]

/-- After the in-place update the retrieved row for the pair carries the new
`answer_data`, provided some row for the pair existed. -/
theorem find?_update_answers (sid qid : ℕ) (d : String) (l : List AnswerRec)
    (h : l.any (answerMatches sid qid) = true) :
    ((l.map fun a =>
        if answerMatches sid qid a then
          AnswerRec.mk a.submissionId a.questionId a.exerciseId d
        else a).find? (answerMatches sid qid)).map AnswerRec.answerData = some d := by
  induction l with
  | nil => simp at h
  | cons hd t ih =>
    by_cases hp : answerMatches sid qid hd
    · rw [List.map_cons, if_pos hp,
        List.find?_cons_of_pos _ (by rw [answerMatches_update]; exact hp)]
      rfl
    · have h2 : t.any (answerMatches sid qid) = true := by
        simpa [hp] using h
      rw [List.map_cons, if_neg hp, List.find?_cons_of_neg _ hp]
      exact ih h2

/-- Appending a fresh row when none matched: the retrieved row for the pair
is the appended one. -/
theorem find?_append_fresh (p : AnswerRec → Bool) (l : List AnswerRec)
    (x : AnswerRec) (h : l.any p = false) (hx : p x = true) :
    (l ++ [x]).find? p = some x := by
  induction l with
  | nil => simp [List.find?_cons_of_pos, hx]
  | cons hd t ih =>
    have hhd : p hd = false := by
      cases hp : p hd
      · rfl
      · simp [hp] at h
    have h2 : t.any p = false := by simpa [hhd] using h
    simp [List.find?_cons_of_neg, hhd, ih h2]

/-- C7: `submit_answer` and `complete_submission` succeed only while the
submission's status is `in_progress` and are rejected with a
`ValidationError` otherwise (an error result carries no new state, so the
state is unchanged); and while in progress, `submit_answer` upserts the
answer for the question, so a state with at most one answer row per
(submission, question) pair keeps at most one, and the stored row carries
the newest `answer_data` (last write wins). -/
theorem C7_submission_lifecycle_guards (st : DBState) (sid qid eid : ℕ)
    (data : String) :
    (findSubmission st sid = none →
      submit_answer st sid qid eid data = .error "Submission not found" ∧
      complete_submission st sid = .error "Submission not found") ∧
    (∀ sub, findSubmission st sid = some sub → sub.status ≠ "in_progress" →
      submit_answer st sid qid eid data
        = .error "Cannot submit answer. Test is not in progress." ∧
      complete_submission st sid
        = .error "Cannot complete submission. Test is not in progress.") ∧
    (∀ st2, submit_answer st sid qid eid data = .ok st2 →
      (answerCount st sid qid ≤ 1 → answerCount st2 sid qid ≤ 1) ∧
      (findAnswer st2 sid qid).map AnswerRec.answerData = some data) := by
  refine ⟨?_, ?_, ?_⟩
  · intro h
    exact ⟨by simp [submit_answer, h], by simp [complete_submission, h]⟩
  · intro sub hsub hst
    exact ⟨by simp [submit_answer, hsub, hst], by simp [complete_submission, hsub, hst]⟩
  · intro st2 hok
    unfold submit_answer at hok
    split at hok
    · exact Except.noConfusion hok
    · rename_i sub hsubeq
      split at hok
      · exact Except.noConfusion hok
      · split at hok
        · exact Except.noConfusion hok
        · rename_i q hqeq
          by_cases h1 : q.testId ≠ sub.testId
          · rw [if_pos h1] at hok
            exact Except.noConfusion hok
          · rw [if_neg h1] at hok
            by_cases h2 : eid ∉ st.exercises
            · rw [if_pos h2] at hok
              exact Except.noConfusion hok
            · rw [if_neg h2] at hok
              by_cases h3 : eid ≠ q.exerciseId
              · rw [if_pos h3] at hok
                exact Except.noConfusion hok
              · rw [if_neg h3] at hok
                by_cases h4 : st.answers.any (answerMatches sid qid) = true
                · -- update-in-place branch
                  rw [if_pos h4] at hok
                  injection hok with hok2
                  subst hok2
                  constructor
                  · intro hle
                    exact le_trans (le_of_eq (countP_update_answers sid qid data st.answers)) hle
                  · exact find?_update_answers sid qid data st.answers h4
                · -- insert branch
                  rw [if_neg h4] at hok
                  injection hok with hok2
                  subst hok2
                  have hany : st.answers.any (answerMatches sid qid) = false := by
                    cases hcase : st.answers.any (answerMatches sid qid)
                    · rfl
                    · exact absurd hcase h4
                  have hzero : st.answers.countP (answerMatches sid qid) = 0 := by
                    rw [List.countP_eq_zero]
                    intro a ha
                    have := List.any_eq_false.mp hany a ha
                    simpa using this
                  have hmatch : answerMatches sid qid ⟨sid, qid, eid, data⟩ = true := by
                    simp [answerMatches]
                  constructor
                  · intro _
                    show (st.answers ++ [(⟨sid, qid, eid, data⟩ : AnswerRec)]).countP
                        (answerMatches sid qid) ≤ 1
                    rw [List.countP_append, hzero]
                    simp [List.countP_cons, hmatch]
                  · show ((st.answers ++ [(⟨sid, qid, eid, data⟩ : AnswerRec)]).find?
                        (answerMatches sid qid)).map AnswerRec.answerData = some data
                    rw [find?_append_fresh _ _ _ hany hmatch]
                    rfl

/-- Witness for C7 at a concrete database: a graded submission rejects both
operations, and a fresh in-progress submission records an answer that is
retrievable and unique. -/
theorem C7_submission_lifecycle_guards_witness :
    (submit_answer ⟨[⟨1, 7, "graded"⟩], [⟨4, 7, 9⟩], [9], []⟩ 1 4 9 "x"
        = .error "Cannot submit answer. Test is not in progress.") ∧
    (complete_submission ⟨[⟨1, 7, "graded"⟩], [⟨4, 7, 9⟩], [9], []⟩ 1
        = .error "Cannot complete submission. Test is not in progress.") ∧
    (answerCount ⟨[⟨1, 7, "in_progress"⟩], [⟨4, 7, 9⟩], [9],
        [⟨1, 4, 9, "old"⟩]⟩ 1 4 ≤ 1 →
      answerCount ⟨[⟨1, 7, "in_progress"⟩], [⟨4, 7, 9⟩], [9],
        [⟨1, 4, 9, "new"⟩]⟩ 1 4 ≤ 1) ∧
    (findAnswer ⟨[⟨1, 7, "in_progress"⟩], [⟨4, 7, 9⟩], [9],
        [⟨1, 4, 9, "new"⟩]⟩ 1 4).map AnswerRec.answerData = some "new" := by
  have hguard := (C7_submission_lifecycle_guards
      ⟨[⟨1, 7, "graded"⟩], [⟨4, 7, 9⟩], [9], []⟩ 1 4 9 "x").2.1
      ⟨1, 7, "graded"⟩ (by decide) (by decide)
  have hup := (C7_submission_lifecycle_guards
      ⟨[⟨1, 7, "in_progress"⟩], [⟨4, 7, 9⟩], [9], [⟨1, 4, 9, "old"⟩]⟩
      1 4 9 "new").2.2
      ⟨[⟨1, 7, "in_progress"⟩], [⟨4, 7, 9⟩], [9], [⟨1, 4, 9, "new"⟩]⟩
      (by rfl)
  exact ⟨hguard.1, hguard.2, hup.1, hup.2⟩

/-- C8 (amended): every score produced by `grade_submission` lies in
`[0, exercise.maxScore]` when `maxScore ≥ 0` — structurally, since each
branch returns `0`, `maxScore`, or a `correctCount/totalCount` fraction of
`maxScore`; no clamping step exists anywhere. The function-based evaluators,
by contrast, never see `maxScore` and can exceed it (see the
counterexample). -/
theorem C8_grade_submission_bounds (ex : CrudExercise) (ua : AnswerData)
    (h : 0 ≤ ex.maxScore) :
    0 ≤ grade_submission ex ua ∧ grade_submission ex ua ≤ ex.maxScore := by
  obtain ⟨gt, et, ca, ms⟩ := ex
  have hms : (0 : ℚ) ≤ ms := h
  unfold grade_submission
  dsimp only
  by_cases hg : gt ≠ "auto"
  · rw [if_pos hg]
    exact ⟨le_rfl, hms⟩
  · rw [if_neg hg]
    by_cases hmc : et = "multiple_choice" ∨ et = "true_false"
    · rw [if_pos hmc]
      split_ifs with he
      · exact ⟨hms, le_rfl⟩
      · exact ⟨le_rfl, hms⟩
    · rw [if_neg hmc]
      by_cases hfb : et = "fill_blank" ∨ et = "short_answer"
      · rw [if_pos hfb]
        cases ca with
        | str s =>
          dsimp only
          split_ifs with he
          · exact ⟨hms, le_rfl⟩
          · exact ⟨le_rfl, hms⟩
        | strs ss =>
          dsimp only
          split_ifs with he
          · exact ⟨hms, le_rfl⟩
          · exact ⟨le_rfl, hms⟩
        | pairs kvs =>
          dsimp only
          split_ifs with he
          · exact ⟨hms, le_rfl⟩
          · exact ⟨le_rfl, hms⟩
      · rw [if_neg hfb]
        by_cases hmw : et = "matching_words"
        · rw [if_pos hmw]
          cases ua with
          | str s => cases ca <;> exact ⟨le_rfl, hms⟩
          | strs ss => cases ca <;> exact ⟨le_rfl, hms⟩
          | pairs ukvs =>
            cases ca with
            | str s => exact ⟨le_rfl, hms⟩
            | strs ss => exact ⟨le_rfl, hms⟩
            | pairs ckvs =>
              dsimp only
              split_ifs with ht
              · have hlen : (0 : ℚ) < (ckvs.length : ℚ) := by exact_mod_cast ht
                constructor
                · exact mul_nonneg (div_nonneg (Nat.cast_nonneg _) (Nat.cast_nonneg _)) hms
                · refine le_trans (mul_le_mul_of_nonneg_right ?_ hms)
                    (le_of_eq (one_mul ms))
                  rw [div_le_one hlen]
                  exact_mod_cast List.countP_le_length _
              · exact ⟨le_rfl, hms⟩
        · rw [if_neg hmw]
          exact ⟨le_rfl, hms⟩

/-- Witness for C8 (amended): a correct auto-graded true/false style answer
scores within `[0, 10]`. -/
theorem C8_grade_submission_bounds_witness :
    (0 : ℚ) ≤ 10 ∧
    0 ≤ grade_submission ⟨"auto", "multiple_choice", .str "a", 10⟩ (.str "a") ∧
    grade_submission ⟨"auto", "multiple_choice", .str "a", 10⟩ (.str "a")
      ≤ (⟨"auto", "multiple_choice", .str "a", 10⟩ : CrudExercise).maxScore :=
  ⟨by norm_num,
   (C8_grade_submission_bounds ⟨"auto", "multiple_choice", .str "a", 10⟩ (.str "a")
      (by norm_num)).1,
   (C8_grade_submission_bounds ⟨"auto", "multiple_choice", .str "a", 10⟩ (.str "a")
      (by norm_num)).2⟩

/-- Counterexample to C8 as stated: the function-based `evaluate_fill_blank`
receives no `maxScore` and does not clamp — with `pointsPerCorrect = 7` and
both blanks correct it returns 14, exceeding an exercise `maxScore` of 10. -/
theorem C8_fill_blank_exceeds_max_counterexample :
    (evaluate_fill_blank ["a", "b"] [(0, "a"), (1, "b")] none false
        ⟨1, 0, 7, false⟩).score = 14 ∧
    ¬ ((14 : ℕ) ≤ 10) :=
  ⟨by decide, by decide⟩

/-- Running `k` starts from `attempts_used = a` with `a + k ≤ maxAttempts`
and the clock before the due date: all `k` calls succeed and the counter
ends at `a + k`. -/
theorem startRepeat_run (now due N : ℕ) (hdue : now ≤ due) :
    ∀ (k a : ℕ) (subs : List ℕ), a + k ≤ N →
      (startRepeat now k ⟨⟨a, N, due⟩, subs⟩).1.assignment = ⟨a + k, N, due⟩ ∧
      (startRepeat now k ⟨⟨a, N, due⟩, subs⟩).2 = k := by
  intro k
  induction k with
  | zero => intro a subs _; exact ⟨rfl, rfl⟩
  | succ k ih =>
    intro a subs hak
    have hcan : can_take_test ⟨a, N, due⟩ now = true := by
      simp only [can_take_test, Bool.and_eq_true, decide_eq_true_eq]
      exact ⟨by omega, hdue⟩
    have hstep : start_test now ⟨⟨a, N, due⟩, subs⟩
        = .ok ⟨⟨a + 1, N, due⟩, subs ++ [a + 1]⟩ := by
      simp [start_test, hcan, increment_attempts]
    obtain ⟨h1, h2⟩ := ih (a + 1) (subs ++ [a + 1]) (by omega)
    rw [show a + (k + 1) = a + 1 + k by omega]
    simp only [startRepeat, hstep]
    exact ⟨h1, by rw [h2]⟩

/-- C9: for an assignment with `maxAttempts = N` and the clock within the
due date, starting from zero used attempts exactly `N` sequential `start`
calls succeed, the `(N+1)`th is rejected with the attempt-limit error, and
every successful start increments the attempts counter and creates a
submission whose attempt number is the incremented counter. -/
theorem C9_attempt_limit (N now due : ℕ) (hdue : now ≤ due) :
    (startRepeat now N ⟨⟨0, N, due⟩, []⟩).2 = N ∧
    start_test now (startRepeat now N ⟨⟨0, N, due⟩, []⟩).1
      = .error "Cannot take this test. It may be past due or max attempts reached." ∧
    (∀ s s2, start_test now s = .ok s2 →
      s2.assignment.attemptsUsed = s.assignment.attemptsUsed + 1 ∧
      s2.submissions = s.submissions ++ [s.assignment.attemptsUsed + 1]) := by
  obtain ⟨h1, h2⟩ := startRepeat_run now due N hdue N 0 [] (by omega)
  refine ⟨h2, ?_, ?_⟩
  · have hfull : can_take_test (startRepeat now N ⟨⟨0, N, due⟩, []⟩).1.assignment now
        = false := by
      rw [h1]
      simp only [can_take_test, Bool.and_eq_false_iff]
      left
      simp only [decide_eq_false_iff_not]
      omega
    simp [start_test, hfull]
  · intro s s2 hok
    unfold start_test at hok
    by_cases hc : can_take_test s.assignment now = true
    · rw [if_pos hc] at hok
      injection hok with hok2
      subst hok2
      exact ⟨rfl, rfl⟩
    · rw [if_neg hc] at hok
      exact Except.noConfusion hok

/-- Witness for C9 with `maxAttempts = 2` and clock 0 before due date 5:
two successful starts, then rejection. -/
theorem C9_attempt_limit_witness :
    (startRepeat 0 2 ⟨⟨0, 2, 5⟩, []⟩).2 = 2 ∧
    start_test 0 (startRepeat 0 2 ⟨⟨0, 2, 5⟩, []⟩).1
      = .error "Cannot take this test. It may be past due or max attempts reached." :=
  ⟨(C9_attempt_limit 2 0 5 (by decide)).1, (C9_attempt_limit 2 0 5 (by decide)).2.1⟩

/-- C10: a submission created through the single-exercise `create_submission`
path is born fully resolved, never `in_progress`: with `grading_type =
"auto"` it is stored as `graded`/`auto` with the auto-computed score,
otherwise as `pending` with `graded_by` unset and score `0.0`. -/
theorem C10_create_submission_fully_resolved (ex : CrudExercise) (uid eid : ℕ)
    (ua : AnswerData) (an : ℕ) :
    (create_submission ex uid eid ua an).status ≠ "in_progress" ∧
    (ex.gradingType = "auto" →
      (create_submission ex uid eid ua an).status = "graded" ∧
      (create_submission ex uid eid ua an).gradedBy = some "auto" ∧
      (create_submission ex uid eid ua an).score = grade_submission ex ua) ∧
    (ex.gradingType ≠ "auto" →
      (create_submission ex uid eid ua an).status = "pending" ∧
      (create_submission ex uid eid ua an).gradedBy = none ∧
      (create_submission ex uid eid ua an).score = 0) := by
  refine ⟨?_, ?_, ?_⟩
  · by_cases hg : ex.gradingType = "auto"
    · simp only [create_submission, if_pos hg]
      decide
    · simp only [create_submission, if_neg hg]
      decide
  · intro hg
    simp [create_submission, hg]
  · intro hg
    refine ⟨by simp [create_submission, hg], by simp [create_submission, hg], ?_⟩
    simp [create_submission, grade_submission, hg]

/-- Witness for C10: an auto-graded exercise yields a `graded`/`auto` row,
and a manual exercise yields a `pending` row with score 0. -/
theorem C10_create_submission_fully_resolved_witness :
    ((create_submission ⟨"auto", "true_false", .str "true", 5⟩ 1 2 (.str "true") 1).status
        = "graded" ∧
      (create_submission ⟨"auto", "true_false", .str "true", 5⟩ 1 2 (.str "true") 1).gradedBy
        = some "auto" ∧
      (create_submission ⟨"auto", "true_false", .str "true", 5⟩ 1 2 (.str "true") 1).score
        = grade_submission ⟨"auto", "true_false", .str "true", 5⟩ (.str "true")) ∧
    ((create_submission ⟨"manual", "long_answer", .str "x", 5⟩ 1 2 (.str "y") 1).status
        = "pending" ∧
      (create_submission ⟨"manual", "long_answer", .str "x", 5⟩ 1 2 (.str "y") 1).gradedBy
        = none ∧
      (create_submission ⟨"manual", "long_answer", .str "x", 5⟩ 1 2 (.str "y") 1).score = 0) :=
  ⟨(C10_create_submission_fully_resolved ⟨"auto", "true_false", .str "true", 5⟩
      1 2 (.str "true") 1).2.1 rfl,
   (C10_create_submission_fully_resolved ⟨"manual", "long_answer", .str "x", 5⟩
      1 2 (.str "y") 1).2.2 (by decide)⟩

end LMS
